import Mathlib

/-!
A shallow embedding of `cinder/volume/drivers/dmclone/driver.py`
(`DMCloneVolumeDriver`): the migration state machine that drives live
migration of a block volume between hosts through a device-mapper clone
overlay.

Side effects (device-mapper commands, RPC calls, record persistence) are
embedded as explicit event traces; raised Python exceptions are embedded as
`Err` values; the database, the connector and the device-mapper collaborators
answer through explicit parameters (their responses), since only their call
sites live in the driver.  Machine-level detail the driver never touches is
not modelled.
-/

namespace DMClone

/-- Python `str.split(sep)` for a single-character separator: split on every
occurrence, keeping empty pieces.  Structural recursion over the character
list so that concrete instances reduce inside the kernel. -/
def splitCharAux (c : Char) : List Char → List Char → List String
  | [], acc => [String.mk acc.reverse]
  | d :: ds, acc =>
    if d = c then String.mk acc.reverse :: splitCharAux c ds []
    else splitCharAux c ds (d :: acc)

/-- Python `s.split(c)` for one-character `c`. -/
def splitChar (c : Char) (s : String) : List String :=
  splitCharAux c s.data []

/-- `volume_utils.extract_host(host, 'host')`: the part of
`host@backend#pool` before the `@`. -/
def hostPart (s : String) : String :=
  (splitChar '@' s).headD ""

/-- Python `s.startswith('target:')`, expressed through the same
single-character split used elsewhere: the piece before the first `:` is
`target` and a `:` occurs. -/
def startsTarget (s : String) : Prop :=
  (splitChar ':' s).headD "" = "target" ∧ 2 ≤ (splitChar ':' s).length

instance (s : String) : Decidable (startsTarget s) := by
  unfold startsTarget; infer_instance

/-- `migration_status` is truthy and starts with `target:`
(the guard used by the monitor's candidate filter and by
`terminate_connection`). -/
def msTarget : Option String → Prop
  | some s => startsTarget s
  | none => False

instance (o : Option String) : Decidable (msTarget o) := by
  cases o <;> unfold msTarget <;> infer_instance

/-- The persisted volume record (the fields the driver reads or writes). -/
structure Volume where
  id : String
  name_id : String
  host : String
  cluster_name : String
  availability_zone : String
  provider_id : String
  provider_location : String
  provider_auth : String
  provider_geometry : String
  status : String
  migration_status : Option String
  attach_status : String
  size : Nat
  user_id : String
  project_id : String
  use_quota : Bool
  display_description : String
deriving DecidableEq, Repr

/-- `volume.name` in cinder: `volume-<name_id>`. -/
def vname (v : Volume) : String := "volume-" ++ v.name_id

/-- `_dm_target_name`: `volume.name + '-handle'`. -/
def targetName (v : Volume) : String := vname v ++ "-handle"

/-- `_metadata_dev_name`: `volume.name + '-metadata'`. -/
def metaName (v : Volume) : String := vname v ++ "-metadata"

/-- `local_path` of the LVM base driver: the backing logical volume path. -/
def localPath (v : Volume) : String := "/dev/vg0/" ++ vname v

/-- The linear table loaded at cutover and for local attaches:
`0 <size*2097152> linear <local_path> 0`. -/
def linearTable (v : Volume) : String :=
  "0 " ++ toString (v.size * 2097152) ++ " linear " ++ localPath v ++ " 0"

/-- The clone table built by `create_volume`:
`0 <size*2097152> clone /dev/vg0/<meta> <local_path> <src_handle> 8 1 no_hydration`. -/
def cloneTable (v : Volume) (srcHandlePath : String) : String :=
  "0 " ++ toString (v.size * 2097152) ++ " clone /dev/vg0/" ++ metaName v
    ++ " " ++ localPath v ++ " " ++ srcHandlePath ++ " 8 1 no_hydration"

/-- Observable actions of the driver: device-mapper commands, metadata-pool
commands, connector operations, RPC calls, record persistence.  A
`msTrans vid old new` event accompanies every write of `migration_status`
(record creation included, with `old = none`). -/
inductive Event where
  | baseCreate (volName : String)
  | baseDelete (volName : String)
  | createRecord (v : Volume)
  | saveRecord (v : Volume)
  | destroyRecord (vid : String)
  | msTrans (vid : String) (oldS newS : Option String)
  | dmCreate (name table : String)
  | dmLoad (name table : String)
  | dmSuspend (name : String)
  | dmResume (name : String)
  | dmMessage (name sector msg : String)
  | dmRemove (name : String)
  | metaCreate (name sz : String)
  | metaDelete (name : String)
  | connectVol (vid : String)
  | disconnectVol (vid : String)
  | rpcCreateVolume (vid : String)
  | rpcDeleteVolume (vid : String)
  | rpcRemoveExport (vid : String)
  | rpcTerminateConnection (vid : String)
  | targetInit (vid : String)
deriving DecidableEq, Repr

/-- Raised errors, both Python-level (`IndexError`, `NameError`,
`AttributeError`) and the driver's own taxonomy. -/
inductive Err where
  | indexError
  | nameError
  | attributeError
  | validationError
  | invalidConnector
  | collab (step : String)
  | remoteCreationFailed
  | remoteCreationTimeout
  | fuelOut
deriving DecidableEq, Repr

/-- `_switch_volumes`, as a pure value exchange: swap `name_id` and the seven
placement fields, leave everything else (in particular `id`) alone.  The two
`save()` calls are emitted by the call sites. -/
def switchVolumes (a b : Volume) : Volume × Volume :=
  ( { a with
      name_id := b.name_id
      host := b.host
      cluster_name := b.cluster_name
      availability_zone := b.availability_zone
      provider_id := b.provider_id
      provider_location := b.provider_location
      provider_auth := b.provider_auth
      provider_geometry := b.provider_geometry },
    { b with
      name_id := a.name_id
      host := a.host
      cluster_name := a.cluster_name
      availability_zone := a.availability_zone
      provider_id := a.provider_id
      provider_location := a.provider_location
      provider_auth := a.provider_auth
      provider_geometry := a.provider_geometry } )

/-! ## The migration monitor (`_migration_monitor`)

`dmStatus` is the whitespace-token list of the device-mapper status line.
Modelled from the spec: `DMSetup.status` (the `dmsetup` wrapper is a
collaborator whose source is not under `src/`) returns the status line as a
structured token list, e.g.
`0 2097152 clone 8 30/262144 8 262144/262144 0 0 4 hydration_threshold 1
hydration_batch_size 1 rw` becomes
`["0", "2097152", "clone", ...]`.  The driver indexes it as a Python list;
an out-of-range index raises `IndexError`. -/

/-- The finalization block of `_migration_monitor` (hydration complete):
mark `completing` and save, suspend → load linear table → resume, delete the
metadata device, then — only if the source record was found — disconnect the
source (connector disconnect plus remote export removal) and request its
remote deletion, and finally mark `success` and save. -/
def finalize (srcVol : Option Volume) (v : Volume) : Volume × List Event :=
  let v1 : Volume := { v with migration_status := some "completing" }
  let evs1 : List Event :=
    [.msTrans v.id v.migration_status (some "completing"), .saveRecord v1,
     .dmSuspend (targetName v), .dmLoad (targetName v) (linearTable v),
     .dmResume (targetName v), .metaDelete (metaName v)]
  let evs2 : List Event :=
    match srcVol with
    | some s => [.disconnectVol s.id, .rpcRemoveExport s.id, .rpcDeleteVolume s.id]
    | none => []
  let v2 : Volume := { v1 with migration_status := some "success" }
  (v2, evs1 ++ evs2
        ++ [.msTrans v.id (some "completing") (some "success"), .saveRecord v2])

/-- One volume of a monitor tick: query overlay status; log and skip when the
target type (token 2) is not `clone`; otherwise split token 6 on `/` and —
exactly as the Python source, with its evaluation order and short-circuit —
compare `hydrated[0] == hydrated[1]` and then `dm_status[7] == '0'`;
finalize when both hold.  Out-of-range accesses are `IndexError`s.
`srcVol` is the database's answer to `_find_src_volume`. -/
def monitorProcessVolume (dmStatus : List String) (srcVol : Option Volume)
    (v : Volume) : Except Err (Volume × List Event) :=
  match dmStatus.get? 2 with
  | none => .error .indexError
  | some t2 =>
    if t2 ≠ "clone" then .ok (v, [])
    else
      match dmStatus.get? 6 with
      | none => .error .indexError
      | some t6 =>
        let hydrated := splitChar '/' t6
        match hydrated.get? 1 with
        | none => .error .indexError
        | some h1 =>
          if hydrated.headD "" = h1 then
            match dmStatus.get? 7 with
            | none => .error .indexError
            | some t7 =>
              if t7 = "0" then .ok (finalize srcVol v)
              else .ok (v, [])
          else .ok (v, [])

/-- The monitor tick's `for` loop over the candidate volumes (each given with
its status tokens and the source-lookup answer).  There is no per-volume
exception handler in the source: an error raised while processing one volume
propagates out of `_migration_monitor`, leaving the remaining volumes of the
tick unprocessed.  Returns the emitted events, the per-volume results
(updated where processed, unchanged from the failure on), and the escaped
error, if any. -/
def monitorTick :
    List (List String × Option Volume × Volume) →
      List Event × List Volume × Option Err
  | [] => ([], [], none)
  | (ts, src, v) :: rest =>
    match monitorProcessVolume ts src v with
    | .error e => ([], v :: rest.map (fun x => x.2.2), some e)
    | .ok (v', evs) =>
      let r := monitorTick rest
      (evs ++ r.1, v' :: r.2.1, r.2.2)

/-- Finalization happened for this candidate: processing succeeded and the
overlay was suspended for cutover. -/
def didFinalize (dmStatus : List String) (srcVol : Option Volume)
    (v : Volume) : Prop :=
  ∃ v' evs, monitorProcessVolume dmStatus srcVol v = .ok (v', evs)
    ∧ Event.dmSuspend (targetName v) ∈ evs

instance (ts : List String) (src : Option Volume) (v : Volume) :
    Decidable (didFinalize ts src v) := by
  unfold didFinalize
  cases h : monitorProcessVolume ts src v with
  | error e => exact .isFalse (by rintro ⟨v', evs, hv, _⟩; simp [h] at hv)
  | ok p =>
    refine decidable_of_iff (Event.dmSuspend (targetName v) ∈ p.2) ⟨?_, ?_⟩
    · intro hm; exact ⟨p.1, p.2, by simp [h], hm⟩
    · rintro ⟨v', evs, hv, hm⟩
      injection hv with hp
      rw [hp]
      exact hm

/-! ## `create_volume` -/

/-- The `except` block of `create_volume`, run inside
`excutils.save_and_reraise_exception()` with the original error `orig`:
set `status = error` and `migration_status = error` and save; then
`dmsetup.remove` of the handle (modelled from the spec: `remove` of an
absent target is an idempotent no-op, the wrapper's source not being under
`src/`); then `connector.disconnect_volume(connector_data,
src_volume_handle['path'], ...)` — a `NameError` if the original failure
happened before `connector` or `src_volume_handle` was bound, in which case
the cleanup stops there and the `NameError` escapes the
`save_and_reraise_exception` block in place of `orig`; then delete the
metadata device and the record, and re-raise `orig`. -/
def cvCleanup (volume : Volume) (evs : List Event) (orig : Err)
    (connectorBound handleBound : Bool) : Err × Volume × List Event :=
  let v1 : Volume := { volume with
    status := "error", migration_status := some "error" }
  let evs1 := evs
    ++ [.msTrans volume.id volume.migration_status (some "error"),
        .saveRecord v1, .dmRemove (targetName volume)]
  if connectorBound && handleBound then
    (orig, v1,
      evs1 ++ [.disconnectVol volume.id, .metaDelete (metaName volume),
               .baseDelete (vname volume)])
  else
    (.nameError, v1, evs1)

/-- `create_volume`: always run the base (LVM) provisioning; when
`migration_status` is `starting` or `migrating`, look up the source record
by the reverse filter `migration_status == 'target:' + volume.id` (`srcVol`
is the database's answer; an empty answer makes the `[0]` indexing raise
`IndexError`), obtain a connector, connect the source volume (`connectOk`,
yielding `srcHandlePath`), allocate the 1 GiB metadata device (`metaOk`),
create the clone overlay in `no_hydration` mode (`dmCreateOk`); when
`migration_status` is exactly `migrating`, send `enable_hydration`
(`msgOk`).  Each `…Ok` flag is the corresponding collaborator's success;
any failure runs `cvCleanup`.  Returns the raised error (if any), the
record, and the event trace. -/
def create_volume (volume : Volume) (srcVol : Option Volume)
    (srcHandlePath : String) (connectOk metaOk dmCreateOk msgOk : Bool) :
    Option Err × Volume × List Event :=
  let evs0 : List Event := [.baseCreate (vname volume)]
  if volume.migration_status = some "starting"
      ∨ volume.migration_status = some "migrating" then
    match srcVol with
    | none =>
      -- `VolumeList.get_all(...)[0]` on an empty answer: `IndexError`,
      -- before `connector` is bound.
      let r := cvCleanup volume evs0 .indexError false false
      (some r.1, r.2)
    | some src =>
      -- `_get_connector` binds `connector`/`connector_data`.
      if connectOk then
        let evs1 := evs0 ++ [.connectVol src.id]
        if metaOk then
          let evs2 := evs1 ++ [.metaCreate (metaName volume) "1g"]
          if dmCreateOk then
            let evs3 := evs2
              ++ [.dmCreate (targetName volume) (cloneTable volume srcHandlePath)]
            if volume.migration_status = some "migrating" then
              if msgOk then
                (none, volume,
                  evs3 ++ [.dmMessage (targetName volume) "0" "enable_hydration"])
              else
                let r := cvCleanup volume evs3 (.collab "message") true true
                (some r.1, r.2)
            else (none, volume, evs3)
          else
            let r := cvCleanup volume evs2 (.collab "dmsetup.create") true true
            (some r.1, r.2)
        else
          let r := cvCleanup volume evs1 (.collab "vg_metadata.create_volume") true true
          (some r.1, r.2)
      else
        -- `connect_volume` raised: `src_volume_handle` is never bound.
        let r := cvCleanup volume evs0 (.collab "connect_volume") true false
        (some r.1, r.2)
  else
    (none, volume, evs0)

/-! ## The attach path (`initialize_connection`, embedded as `initConnection`) -/

/-- The destination service record resolved for the computed destination
host. -/
structure Service where
  host : String
  availability_zone : String
  cluster_name : String
deriving DecidableEq, Repr

/-- Outcome of the bounded wait for the remote creation. -/
structure WaitOut where
  /-- simulated clock when the loop ended (`time.time()`); only the
  `time.sleep(tries ** 2)` calls advance it. -/
  time : Nat
  /-- how many `rpcapi.delete_volume` requests the loop issued. -/
  deletes : Nat
  /-- whether `new_volume.destroy()` ran. -/
  destroyed : Bool
  /-- the origin record after the loop. -/
  origin : Volume
  /-- `none` when the loop exited with the destination `available`. -/
  err : Option Err
  /-- events emitted by the loop. -/
  events : List Event
deriving DecidableEq, Repr

/-- The `while new_volume.status != 'available'` loop of the attach path.
`st n` is the destination's status at the `n`-th `refresh()`; `t` is the
simulated clock, advanced only by `time.sleep(tries ** 2)`; the deadline was
fixed to sixty seconds past the clock at entry.  Each iteration: if the
status is `available`, exit; else increment `tries`; if the clock passed the
deadline or the status is `error`, request remote deletion of the
destination, destroy its record, set the origin's `migration_status` to
`error` and save, and raise `RemoteCreationFailed` (status `error`) or the
timeout-distinguished `RemoteCreationTimeout`; otherwise sleep `tries ** 2`
and refresh.  `fuel` bounds the recursion; exhaustion returns `none`. -/
def waitCreate (st : Nat → String) (destId : String) (origin1 : Volume)
    (deadline : Nat) : Nat → Nat → Nat → Nat → Option WaitOut
  | 0, _, _, _ => none
  | fuel + 1, t, tries, k =>
    if st k = "available" then
      some ⟨t, 0, false, origin1, none, []⟩
    else
      let tr := tries + 1
      if t > deadline ∨ st k = "error" then
        some ⟨t, 1, true,
          { origin1 with migration_status := some "error" },
          some (if st k = "error" then .remoteCreationFailed
                else .remoteCreationTimeout),
          [.rpcDeleteVolume destId, .destroyRecord destId,
           .msTrans origin1.id origin1.migration_status (some "error"),
           .saveRecord { origin1 with migration_status := some "error" }]⟩
      else
        waitCreate st destId origin1 deadline fuel (t + tr ^ 2) tr (k + 1)

/-- Outcome of `initialize_connection`. -/
structure InitOut where
  err : Option Err
  origin : Volume
  dest : Option Volume
  devicePath : Option String
  /-- clock at which the bounded wait failed, when it did. -/
  failTime : Option Nat
  events : List Event
deriving DecidableEq, Repr

/-- The initial migration role decided from the origin's status
(source lines 401–407): `reserved` ⇒ `migrating`, `in-use` ⇒ `starting`,
anything else ⇒ none. -/
def initMS (status : String) : Option String :=
  if status = "reserved" then some "migrating"
  else if status = "in-use" then some "starting"
  else none

/-- The destination record as `initialize_connection` constructs it:
status `creating`, detached, the computed migration role, quota-exempt,
same size and owner as the origin, placed on the destination service. -/
def initDest (volume : Volume) (svc : Service) (newId : String) : Volume :=
  { id := newId, name_id := newId, host := svc.host,
    cluster_name := svc.cluster_name,
    availability_zone := svc.availability_zone,
    provider_id := "", provider_location := "", provider_auth := "",
    provider_geometry := "", status := "creating",
    migration_status := initMS volume.status, attach_status := "detached",
    size := volume.size, user_id := volume.user_id,
    project_id := volume.project_id, use_quota := false,
    display_description := "" }

/-- `initialize_connection`.  Local case (connector host equals the host
part of the volume's host): create a linear mapping and return its path.
Remote case: call the target driver's initializer, compute the destination
host from the connector host and the backend suffix of `volume.host`
(`volume['host'].split('@')[1]`, an `IndexError` without `@`), build the
destination record `initDest` (`newId` is the id the database assigns,
`svc` the resolved destination service), persist it, then set the origin's
`migration_status` to `target:<newId>` and save, then issue the remote
creation call, then run the bounded wait (`st`, `fuel`, clock start `t0`).
On success force the destination to `maintenance`, annotate it, save, swap
identities (which saves both), and return the overlay path of the
(post-swap) volume. -/
def initConnection (volume : Volume) (connectorHost : String) (svc : Service)
    (newId : String) (st : Nat → String) (fuel t0 : Nat) : InitOut :=
  if connectorHost = hostPart volume.host then
    { err := none, origin := volume, dest := none,
      devicePath := some ("/dev/mapper/" ++ targetName volume),
      failTime := none,
      events := [.dmCreate (targetName volume) (linearTable volume)] }
  else
    match (splitChar '@' volume.host).get? 1 with
    | none =>
      { err := some .indexError, origin := volume, dest := none,
        devicePath := none, failTime := none,
        events := [.targetInit volume.id] }
    | some _ =>
      let nv : Volume := initDest volume svc newId
      let origin1 : Volume :=
        { volume with migration_status := some ("target:" ++ newId) }
      let evs : List Event :=
        [.targetInit volume.id, .createRecord nv,
         .msTrans newId none nv.migration_status,
         .msTrans volume.id volume.migration_status
           (some ("target:" ++ newId)),
         .saveRecord origin1, .rpcCreateVolume newId]
      match waitCreate st newId origin1 (t0 + 60) fuel t0 0 0 with
      | none =>
        { err := some .fuelOut, origin := origin1, dest := some nv,
          devicePath := none, failTime := none, events := evs }
      | some w =>
        match w.err with
        | some e =>
          { err := some e, origin := w.origin, dest := none,
            devicePath := none, failTime := some w.time,
            events := evs ++ w.events }
        | none =>
          let nv1 : Volume := { nv with
            status := "maintenance"
            display_description := "migration src for " ++ volume.id }
          let sw := switchVolumes origin1 nv1
          { err := none, origin := sw.1, dest := some sw.2,
            devicePath := some ("/dev/mapper/" ++ targetName sw.1),
            failTime := none,
            events := evs ++ w.events
              ++ [.saveRecord nv1, .saveRecord sw.1, .saveRecord sw.2] }

/-! ## The detach path (`terminate_connection`) -/

/-- The rollback branch shared by the `reserved` case and the failed
live-migration case of `terminate_connection`: swap identities back (saving
both), remove the (post-swap) source's overlay and metadata device,
disconnect the (post-swap) volume (connector disconnect plus remote export
removal), request remote deletion of the source, and clear the volume's
`migration_status`. -/
def tcRollback (volume src : Volume) : Option Err × Volume × Option Volume × List Event :=
  let sw := switchVolumes volume src
  let v1 := sw.1
  let s1 := sw.2
  let v2 : Volume := { v1 with migration_status := none }
  (none, v2, some s1,
    [.saveRecord v1, .saveRecord s1,
     .dmRemove (targetName s1), .metaDelete (metaName s1),
     .disconnectVol v1.id, .rpcRemoveExport v1.id,
     .rpcDeleteVolume s1.id,
     .msTrans v1.id v1.migration_status none, .saveRecord v2])

/-- `terminate_connection`.  Dispatch on
`(migration_status, status, connector host vs volume host)` exactly as the
source: a `target:`-prefixed `migration_status` selects the migration
branches (`reserved` ⇒ rollback; `in-use` without a connector ⇒
`InvalidConnectorException`; `in-use` on the volume's own host ⇒ rollback;
`in-use` on another host ⇒ terminate the source's connection remotely, mark
the source `migrating` and save, send `enable_hydration`); otherwise
`detaching`, or `maintenance` with `migration_status = 'starting'`, removes
the overlay.  `srcVol` is the database's answer to `_find_src_volume`; a
missing source makes the source dereference raise (`AttributeError`).
Returns the raised error, the volume, the updated source (when touched),
and the events. -/
def terminate_connection (volume : Volume) (connector : Option String)
    (srcVol : Option Volume) : Option Err × Volume × Option Volume × List Event :=
  if msTarget volume.migration_status then
    if volume.status = "reserved" then
      match srcVol with
      | none => (some .attributeError, volume, none, [])
      | some src => tcRollback volume src
    else if volume.status = "in-use" then
      match connector with
      | none => (some .invalidConnector, volume, none, [])
      | some ch =>
        if ch = hostPart volume.host then
          match srcVol with
          | none => (some .attributeError, volume, none, [])
          | some src => tcRollback volume src
        else
          match srcVol with
          | none => (some .attributeError, volume, none, [])
          | some src =>
            let s1 : Volume := { src with migration_status := some "migrating" }
            (none, volume, some s1,
              [.rpcTerminateConnection src.id,
               .msTrans src.id src.migration_status (some "migrating"),
               .saveRecord s1,
               .dmMessage (targetName volume) "0" "enable_hydration"])
    else (none, volume, none, [])
  else if volume.status = "detaching" then
    (none, volume, none, [.dmRemove (targetName volume)])
  else if volume.status = "maintenance"
      ∧ volume.migration_status = some "starting" then
    (none, volume, none, [.dmRemove (targetName volume)])
  else (none, volume, none, [])

/-! ## The `migration_status` transition graphs (for the invariant claim) -/

/-- The transition graph the specification claims:
none → starting|migrating → `target:X` → completing → success|error. -/
def specEdge (a b : Option String) : Prop :=
  (a = none ∧ (b = some "starting" ∨ b = some "migrating"))
  ∨ ((a = some "starting" ∨ a = some "migrating") ∧ msTarget b)
  ∨ (msTarget a ∧ b = some "completing")
  ∨ (a = some "completing" ∧ (b = some "success" ∨ b = some "error"))

instance (a b : Option String) : Decidable (specEdge a b) := by
  unfold specEdge; infer_instance

/-- The transition graph the code actually realizes: the claimed graph
extended with the edges the code performs — publishing the `target:<id>`
pointer on the origin (whatever its previous status, normally none), the
rollback edges `target:X → none` and `target:X → error`, the
`create_volume` failure edges `starting|migrating → error`, the
live-migration cutover edge into `migrating` (from the source's previous
status, normally `starting`), and destination creation without a migration
role (none → none). -/
def codeEdge (a b : Option String) : Prop :=
  specEdge a b
  ∨ msTarget b
  ∨ (msTarget a ∧ (b = none ∨ b = some "error"))
  ∨ ((a = some "starting" ∨ a = some "migrating") ∧ b = some "error")
  ∨ b = some "migrating"
  ∨ (a = none ∧ b = none)

instance (a b : Option String) : Decidable (codeEdge a b) := by
  unfold codeEdge; infer_instance

/-- All `migration_status` writes in a trace respect the edge relation
`edge`. -/
def transOk (edge : Option String → Option String → Prop)
    (evs : List Event) : Prop :=
  ∀ vid a b, Event.msTrans vid a b ∈ evs → edge a b

/-! ## Event classifiers -/

/-- Overlay (device-mapper) commands. -/
def isDmOp : Event → Bool
  | .dmCreate _ _ => true
  | .dmLoad _ _ => true
  | .dmSuspend _ => true
  | .dmResume _ => true
  | .dmMessage _ _ _ => true
  | .dmRemove _ => true
  | _ => false

def isMetaDelete : Event → Bool
  | .metaDelete _ => true
  | _ => false

def isDisconnect : Event → Bool
  | .disconnectVol _ => true
  | _ => false

def isRpcDelete : Event → Bool
  | .rpcDeleteVolume _ => true
  | _ => false

def isCreateRecord : Event → Bool
  | .createRecord _ => true
  | _ => false

def isSaveRecord : Event → Bool
  | .saveRecord _ => true
  | _ => false

def isBaseDelete : Event → Bool
  | .baseDelete _ => true
  | _ => false

/-! ## Concrete fixtures -/

/-- Token list of the status line
`0 2097152 clone 8 262144/262144 0 0 4 hydration_threshold 1 hydration_batch_size 1 rw`
(the spec's "hydration complete" scenario line, which follows the spec's
13-field format). -/
def statusLineA : List String :=
  ["0", "2097152", "clone", "8", "262144/262144", "0", "0", "4",
   "hydration_threshold", "1", "hydration_batch_size", "1", "rw"]

/-- Token list of the status line
`0 2097152 clone 8 30/262144 8 262144/262144 0 0 4 hydration_threshold 1 hydration_batch_size 1 rw`
(the spec's "hydrated < total" scenario line, which follows the kernel's
actual dm-clone format, quoted verbatim in the driver's own comment). -/
def statusLineB : List String :=
  ["0", "2097152", "clone", "8", "30/262144", "8", "262144/262144", "0",
   "0", "4", "hydration_threshold", "1", "hydration_batch_size", "1", "rw"]

/-- A volume record mid-migration on this host, carrying the
`target:<id>` pointer, as the monitor's candidate filter selects. -/
def mvol : Volume :=
  { id := "orig-id", name_id := "orig-name", host := "hostA@lvm#pool",
    cluster_name := "", availability_zone := "nova", provider_id := "p1",
    provider_location := "l1", provider_auth := "a1",
    provider_geometry := "g1", status := "in-use",
    migration_status := some "target:dest-id", attach_status := "attached",
    size := 1, user_id := "u", project_id := "p", use_quota := true,
    display_description := "" }

/-- A second monitor candidate, identical shape, different identity. -/
def mvol2 : Volume :=
  { mvol with
    id := "orig2-id"
    name_id := "orig2-name"
    migration_status := some "target:dest2-id" }

/-- The destination-side record paired with `mvol`. -/
def dvol : Volume :=
  { id := "dest-id", name_id := "dest-name", host := "hostB@lvm#pool",
    cluster_name := "", availability_zone := "nova", provider_id := "p2",
    provider_location := "l2", provider_auth := "a2",
    provider_geometry := "g2", status := "maintenance",
    migration_status := some "starting", attach_status := "detached",
    size := 1, user_id := "u", project_id := "p", use_quota := false,
    display_description := "" }

/-- A record about to be hook-provisioned by `create_volume` in the
`migrating` role. -/
def hvol : Volume :=
  { dvol with
    id := "hook-id"
    name_id := "hook-name"
    status := "creating"
    migration_status := some "migrating" }

/-- A reserved origin record with a published migration pointer, as the
aborted-attachment branch of `terminate_connection` sees it. -/
def rvol : Volume :=
  { mvol with status := "reserved" }

/-- The destination service fixture for attach-path witnesses. -/
def svcB : Service :=
  { host := "hostB@lvm#pool", availability_zone := "nova",
    cluster_name := "" }

/-- A plain volume with no migration role. -/
def pvol : Volume :=
  { mvol with
    id := "plain-id"
    name_id := "plain-name"
    status := "available"
    migration_status := none }

/-- A destination status oracle that never reaches `available` nor
`error`. -/
def stuckStatus : Nat → String := fun _ => "creating"

/-- A destination status oracle that reports `available` at once. -/
def readyStatus : Nat → String := fun _ => "available"

/-! ## Helper lemmas -/

theorem splitCharAux_length (c : Char) (l acc : List Char) :
    1 ≤ (splitCharAux c l acc).length := by
  induction l generalizing acc with
  | nil => simp [splitCharAux]
  | cons d ds ih =>
    simp only [splitCharAux]
    split
    · simp
    · exact ih _

/-- Strings of the shape `target:<x>` satisfy the `startswith('target:')`
guard. -/
theorem startsTarget_target_append (x : String) :
    startsTarget ("target:" ++ x) := by
  cases x with
  | mk l =>
    have hs : splitChar ':' ("target:" ++ String.mk l)
        = "target" :: splitCharAux ':' l [] := by
      show splitCharAux ':' ('t' :: 'a' :: 'r' :: 'g' :: 'e' :: 't' :: ':' :: l) [] = _
      simp [splitCharAux]
    constructor
    · rw [hs]; rfl
    · rw [hs]
      have := splitCharAux_length ':' l []
      simp only [List.length_cons]
      omega

/-- Under a status oracle that never answers `available` nor `error`, any
completed run of the bounded wait ends in the timeout failure: one remote
deletion request, the destination destroyed, the origin marked `error`, the
clock strictly past the deadline, and exactly the failure events. -/
theorem waitCreate_stuck_char (st : Nat → String)
    (h : ∀ n, st n ≠ "available" ∧ st n ≠ "error")
    (destId : String) (origin1 : Volume) (d : Nat) :
    ∀ fuel t tries k w,
      waitCreate st destId origin1 d fuel t tries k = some w →
      w.err = some .remoteCreationTimeout ∧ w.deletes = 1
        ∧ w.destroyed = true
        ∧ w.origin = { origin1 with migration_status := some "error" }
        ∧ d < w.time
        ∧ w.events =
            [.rpcDeleteVolume destId, .destroyRecord destId,
             .msTrans origin1.id origin1.migration_status (some "error"),
             .saveRecord { origin1 with migration_status := some "error" }] := by
  intro fuel
  induction fuel with
  | zero => intro t tries k w hw; simp [waitCreate] at hw
  | succ n ih =>
    intro t tries k w hw
    rw [waitCreate] at hw
    rw [if_neg (h k).1] at hw
    by_cases hd : t > d ∨ st k = "error"
    · have hd' : t > d := by
        rcases hd with hd | hd
        · exact hd
        · exact absurd hd (h k).2
      rw [if_pos hd] at hw
      injection hw with hw
      subst hw
      refine ⟨?_, rfl, rfl, rfl, hd', rfl⟩
      simp [(h k).2]
    · rw [if_neg hd] at hw
      exact ih _ _ _ _ hw

/-- The concrete trajectory of the bounded wait from clock zero under a
stuck status oracle: sleeps of 1, 4, 9, 16, 25 and 36 seconds, then failure
at 91 seconds, for any fuel of at least seven iterations. -/
theorem waitCreate_stuck_run (st : Nat → String)
    (h : ∀ n, st n ≠ "available" ∧ st n ≠ "error")
    (destId : String) (origin1 : Volume) (m : Nat) :
    waitCreate st destId origin1 60 (m + 7) 0 0 0 =
      some ⟨91, 1, true, { origin1 with migration_status := some "error" },
        some .remoteCreationTimeout,
        [.rpcDeleteVolume destId, .destroyRecord destId,
         .msTrans origin1.id origin1.migration_status (some "error"),
         .saveRecord { origin1 with migration_status := some "error" }]⟩ := by
  have hav : ∀ n, (st n = "available") = False := fun n => eq_false (h n).1
  have her : ∀ n, (st n = "error") = False := fun n => eq_false (h n).2
  show waitCreate st destId origin1 60 (m + 6 + 1) 0 0 0 = _
  rw [waitCreate]
  simp only [hav, her, if_false, or_false]
  norm_num
  show waitCreate st destId origin1 60 (m + 5 + 1) 1 1 1 = _
  rw [waitCreate]
  simp only [hav, her, if_false, or_false]
  norm_num
  show waitCreate st destId origin1 60 (m + 4 + 1) 5 2 2 = _
  rw [waitCreate]
  simp only [hav, her, if_false, or_false]
  norm_num
  show waitCreate st destId origin1 60 (m + 3 + 1) 14 3 3 = _
  rw [waitCreate]
  simp only [hav, her, if_false, or_false]
  norm_num
  show waitCreate st destId origin1 60 (m + 2 + 1) 30 4 4 = _
  rw [waitCreate]
  simp only [hav, her, if_false, or_false]
  norm_num
  show waitCreate st destId origin1 60 (m + 1 + 1) 55 5 5 = _
  rw [waitCreate]
  simp only [hav, her, if_false, or_false]
  norm_num
  show waitCreate st destId origin1 60 (m + 1) 91 6 6 = _
  rw [waitCreate]
  simp only [hav, her, if_false, or_true]
  norm_num

/-- Any completed run of the bounded wait emits either no events (success)
or exactly the four failure events. -/
theorem waitCreate_events (st : Nat → String) (destId : String)
    (origin1 : Volume) (d : Nat) :
    ∀ fuel t tries k w,
      waitCreate st destId origin1 d fuel t tries k = some w →
      w.events = [] ∨
        w.events =
          [.rpcDeleteVolume destId, .destroyRecord destId,
           .msTrans origin1.id origin1.migration_status (some "error"),
           .saveRecord { origin1 with migration_status := some "error" }] := by
  intro fuel
  induction fuel with
  | zero => intro t tries k w hw; simp [waitCreate] at hw
  | succ n ih =>
    intro t tries k w hw
    rw [waitCreate] at hw
    split at hw
    · injection hw with hw; subst hw; left; rfl
    · split at hw
      · injection hw with hw; subst hw; right; rfl
      · exact ih _ _ _ _ hw

/-! ## Claim C1 -/

/-- C1 is false at its own scenario lines: on
`0 2097152 clone 8 262144/262144 0 0 4 hydration_threshold 1
hydration_batch_size 1 rw` the monitor does not finalize — token 6 of that
line is `0`, whose split on `/` has no second element, so the hydration
comparison raises `IndexError` — and on
`0 2097152 clone 8 30/262144 8 262144/262144 0 0 4 …` (the line the claim
says must not finalize) finalization occurs and the volume is marked
`success`, because token 6 of that line is the hydrated-regions pair
`262144/262144` and token 7 is `0`. -/
theorem c1_counterexample :
    monitorProcessVolume statusLineA none mvol = .error .indexError
    ∧ ¬ didFinalize statusLineA none mvol
    ∧ didFinalize statusLineB none mvol
    ∧ (monitorProcessVolume statusLineB none mvol).toOption.map
        (fun p => p.1.migration_status) = some (some "success") :=
  ⟨rfl, by decide, by decide, by decide⟩

/-- C1 (amended): for every monitor candidate whose device-mapper target
type (token 2) is `clone` and whose status tokens 6 and 7 exist, with token
6 splitting on `/` into exactly two pieces, finalization runs iff the two
pieces are equal and token 7 is exactly `0`; on the 13-token scenario line
processing aborts with an `IndexError` and no finalization occurs, and on
the 15-token scenario line finalization occurs. -/
theorem c1_finalize_iff (ts : List String) (src : Option Volume) (v : Volume)
    (t6 a b t7 : String)
    (h2 : ts.get? 2 = some "clone") (h6 : ts.get? 6 = some t6)
    (hsplit : splitChar '/' t6 = [a, b]) (h7 : ts.get? 7 = some t7) :
    (didFinalize ts src v ↔ (a = b ∧ t7 = "0"))
    ∧ monitorProcessVolume statusLineA none mvol = .error .indexError
    ∧ didFinalize statusLineB none mvol := by
  refine ⟨?_, rfl, by decide⟩
  have key : monitorProcessVolume ts src v =
      if a = b then
        (if t7 = "0" then Except.ok (finalize src v) else Except.ok (v, []))
      else Except.ok (v, []) := by
    simp only [monitorProcessVolume, h2, h6, hsplit, h7, List.get?,
      List.headD, ne_eq, not_true_eq_false, if_false]
  unfold didFinalize
  rw [key]
  by_cases hab : a = b
  · by_cases h70 : t7 = "0"
    · rw [if_pos hab, if_pos h70]
      constructor
      · intro _; exact ⟨hab, h70⟩
      · intro _
        exact ⟨(finalize src v).1, (finalize src v).2, by simp,
          by simp [finalize]⟩
    · rw [if_pos hab, if_neg h70]
      constructor
      · rintro ⟨v', evs, hv, hm⟩
        have hevs : evs = [] := by
          have := congrArg (fun x => match x with
            | Except.ok p => p.2
            | Except.error _ => []) hv
          simpa using this.symm
        subst hevs; cases hm
      · rintro ⟨_, h70'⟩; exact absurd h70' h70
  · rw [if_neg hab]
    constructor
    · rintro ⟨v', evs, hv, hm⟩
      have hevs : evs = [] := by
        have := congrArg (fun x => match x with
          | Except.ok p => p.2
          | Except.error _ => []) hv
        simpa using this.symm
      subst hevs; cases hm
    · rintro ⟨hab', _⟩; exact absurd hab' hab

/-- Witness for the amended C1 at the 15-token scenario line. -/
theorem c1_witness : didFinalize statusLineB none mvol2 := by
  have h := c1_finalize_iff statusLineB none mvol2 "262144/262144"
    "262144" "262144" "0" (by decide) (by decide) (by decide) (by decide)
  exact h.1.mpr ⟨rfl, rfl⟩

/-! ## Claim C2 -/

/-- C2: in the remote case of the attach path, when the destination never
reaches `available` and never reaches `error`, the coordinator (polling
with `tries ** 2`-second backoff) fails with the timeout-distinguished
migration error; the failure clock is 91 seconds past the start of the
wait — at or after the 60-second deadline, and (last conjunct) no failing
completion of the wait ever ends at or before the deadline; on that failure
exactly one remote deletion of the destination is requested, the
destination's local record is destroyed, and the origin's
`migration_status` is set to `error`. -/
theorem c2_bounded_wait (volume : Volume) (ch : String) (svc : Service)
    (newId bk : String) (st : Nat → String) (m : Nat)
    (hremote : ch ≠ hostPart volume.host)
    (hhost : (splitChar '@' volume.host).get? 1 = some bk)
    (hst : ∀ n, st n ≠ "available" ∧ st n ≠ "error") :
    ((initConnection volume ch svc newId st (m + 7) 0).err
        = some .remoteCreationTimeout)
    ∧ (initConnection volume ch svc newId st (m + 7) 0).failTime = some 91
    ∧ ((initConnection volume ch svc newId st (m + 7) 0).events.filter
        isRpcDelete).length = 1
    ∧ Event.destroyRecord newId
        ∈ (initConnection volume ch svc newId st (m + 7) 0).events
    ∧ (initConnection volume ch svc newId st (m + 7) 0).origin.migration_status
        = some "error"
    ∧ (∀ origin1 d fuel t tries k w,
        waitCreate st newId origin1 d fuel t tries k = some w → d < w.time) := by
  have hrun := waitCreate_stuck_run st hst newId
    { volume with migration_status := some ("target:" ++ newId) } m
  have hout : initConnection volume ch svc newId st (m + 7) 0 =
      { err := some .remoteCreationTimeout
        origin := { volume with migration_status := some "error" }
        dest := none
        devicePath := none
        failTime := some 91
        events :=
          [.targetInit volume.id,
           .createRecord (initDest volume svc newId),
           .msTrans newId none (initDest volume svc newId).migration_status,
           .msTrans volume.id volume.migration_status
             (some ("target:" ++ newId)),
           .saveRecord
             { volume with migration_status := some ("target:" ++ newId) },
           .rpcCreateVolume newId]
          ++ [.rpcDeleteVolume newId, .destroyRecord newId,
              .msTrans volume.id (some ("target:" ++ newId)) (some "error"),
              .saveRecord { volume with migration_status := some "error" }] } := by
    unfold initConnection
    rw [if_neg hremote, hhost]
    simp only [Nat.zero_add, hrun]
  rw [hout]
  refine ⟨rfl, rfl, rfl, by simp, rfl, ?_⟩
  intro origin1 d fuel t tries k w hw
  exact (waitCreate_stuck_char st hst newId origin1 d fuel t tries k w hw).2.2.2.2.1

/-- Witness for C2: the attach of `pvol` toward host B with a destination
stuck in `creating` times out at 91 simulated seconds with one deletion
request. -/
theorem c2_witness :
    ((initConnection pvol "hostB" svcB "dest-id" stuckStatus 7 0).err
        = some .remoteCreationTimeout)
    ∧ (initConnection pvol "hostB" svcB "dest-id" stuckStatus 7 0).failTime
        = some 91 := by
  have h := c2_bounded_wait pvol "hostB" svcB "dest-id" "lvm#pool"
    stuckStatus 0 (by decide) (by decide)
    (fun _ => ⟨by simp [stuckStatus], by simp [stuckStatus]⟩)
  exact ⟨h.1, h.2.1⟩

/-- The remote case of the attach path always emits the six-event prefix
`targetInit, createRecord, msTrans (destination creation), msTrans (pointer
publication), saveRecord (pointer), rpcCreateVolume`, followed by a tail
that contains no record creation and whose `migration_status` writes are
all the wait-failure write `target:<newId> → error`. -/
theorem initConnection_remote_shape (volume : Volume) (ch : String)
    (svc : Service) (newId : String) (st : Nat → String) (fuel t0 : Nat)
    (bk : String)
    (hremote : ch ≠ hostPart volume.host)
    (hhost : (splitChar '@' volume.host).get? 1 = some bk) :
    ∃ tail,
      (initConnection volume ch svc newId st fuel t0).events =
        Event.targetInit volume.id
          :: .createRecord (initDest volume svc newId)
          :: .msTrans newId none (initDest volume svc newId).migration_status
          :: .msTrans volume.id volume.migration_status
               (some ("target:" ++ newId))
          :: .saveRecord
               { volume with migration_status := some ("target:" ++ newId) }
          :: .rpcCreateVolume newId :: tail
      ∧ tail.filter isCreateRecord = []
      ∧ (∀ vid a b, Event.msTrans vid a b ∈ tail →
          a = some ("target:" ++ newId) ∧ b = some "error") := by
  unfold initConnection
  rw [if_neg hremote, hhost]
  simp only []
  cases hw : waitCreate st newId
      { volume with migration_status := some ("target:" ++ newId) }
      (t0 + 60) fuel t0 0 0 with
  | none =>
    exact ⟨[], by simp, rfl, by intro vid a b h; cases h⟩
  | some w =>
    have hev := waitCreate_events st newId
      { volume with migration_status := some ("target:" ++ newId) }
      (t0 + 60) fuel t0 0 0 w hw
    obtain ⟨wt, wdel, wdes, wor, werr, wev⟩ := w
    simp only at hev
    cases werr with
    | some e =>
      refine ⟨wev, by simp, ?_, ?_⟩
      · rcases hev with hev | hev <;> rw [hev] <;> rfl
      · intro vid a b h
        rcases hev with hev | hev <;> rw [hev] at h
        · cases h
        · simp only [List.mem_cons, List.not_mem_nil, or_false] at h
          rcases h with h | h | h | h <;> first
            | (injection h with h1 h2 h3; exact ⟨h2, h3⟩)
            | cases h
    | none =>
      refine ⟨wev ++
        [Event.saveRecord { initDest volume svc newId with
            status := "maintenance"
            display_description := "migration src for " ++ volume.id },
         Event.saveRecord (switchVolumes
            { volume with migration_status := some ("target:" ++ newId) }
            { initDest volume svc newId with
              status := "maintenance"
              display_description := "migration src for " ++ volume.id }).1,
         Event.saveRecord (switchVolumes
            { volume with migration_status := some ("target:" ++ newId) }
            { initDest volume svc newId with
              status := "maintenance"
              display_description := "migration src for " ++ volume.id }).2],
        by simp, ?_, ?_⟩
      · rcases hev with hev | hev <;> rw [List.filter_append, hev] <;> rfl
      · intro vid a b h
        simp only [List.mem_append] at h
        rcases h with h | h
        · rcases hev with hev | hev <;> rw [hev] at h
          · cases h
          · simp only [List.mem_cons, List.not_mem_nil, or_false] at h
            rcases h with h | h | h | h <;> first
              | (injection h with h1 h2 h3; exact ⟨h2, h3⟩)
              | cases h
        · simp only [List.mem_cons, List.not_mem_nil, or_false] at h
          rcases h with h | h | h <;> cases h

/-! ## Claim C4 -/

/-- C4: in the remote case of the attach path, exactly one destination
record is created, and its `migration_status` is determined solely by the
origin volume's status: `reserved` yields `migrating`, `in-use` yields
`starting`, anything else yields none; in particular a cross-host attach of
an `in-use` volume creates the destination with `migration_status`
`starting`. -/
theorem c4_dest_role (volume : Volume) (ch : String) (svc : Service)
    (newId : String) (st : Nat → String) (fuel t0 : Nat) (bk : String)
    (hremote : ch ≠ hostPart volume.host)
    (hhost : (splitChar '@' volume.host).get? 1 = some bk) :
    ∃ nv,
      ((initConnection volume ch svc newId st fuel t0).events.filter
          isCreateRecord) = [Event.createRecord nv]
      ∧ nv.migration_status =
          (if volume.status = "reserved" then some "migrating"
           else if volume.status = "in-use" then some "starting" else none)
      ∧ (volume.status = "in-use" → nv.migration_status = some "starting") := by
  obtain ⟨tail, hev, hcr, _⟩ := initConnection_remote_shape volume ch svc
    newId st fuel t0 bk hremote hhost
  refine ⟨initDest volume svc newId, ?_, rfl, ?_⟩
  · rw [hev]
    simp [List.filter_cons, isCreateRecord, hcr]
  · intro h
    simp [initDest, initMS, h]

/-- Witness for C4: the cross-host attach of the `in-use` volume `mvol`
creates its destination in the `starting` role. -/
theorem c4_witness :
    ∃ nv,
      ((initConnection mvol "hostB" svcB "dest-id" readyStatus 7 0).events.filter
          isCreateRecord) = [Event.createRecord nv]
      ∧ nv.migration_status = some "starting" := by
  obtain ⟨nv, h1, _, h3⟩ := c4_dest_role mvol "hostB" svcB "dest-id"
    readyStatus 7 0 "lvm#pool" (by decide) (by decide)
  exact ⟨nv, h1, h3 rfl⟩

/-! ## Claim C5 -/

/-- C5: in the remote case of the attach path, the destination record is
created (trace position 1) strictly before the origin's
`target:<new-id>` pointer is persisted (trace position 4), which is
strictly before the remote volume-creation call is issued (trace
position 5); and every record save in the whole trace — the pointer
publications included — happens strictly after the destination-record
creation, so at no observable point does the pointer exist without the
record it names. -/
theorem c5_ordering (volume : Volume) (ch : String) (svc : Service)
    (newId : String) (st : Nat → String) (fuel t0 : Nat) (bk : String)
    (hremote : ch ≠ hostPart volume.host)
    (hhost : (splitChar '@' volume.host).get? 1 = some bk) :
    ∃ nv originPtr,
      (initConnection volume ch svc newId st fuel t0).events.get? 1
          = some (.createRecord nv)
      ∧ nv.id = newId
      ∧ (initConnection volume ch svc newId st fuel t0).events.get? 4
          = some (.saveRecord originPtr)
      ∧ originPtr.migration_status = some ("target:" ++ newId)
      ∧ (initConnection volume ch svc newId st fuel t0).events.get? 5
          = some (.rpcCreateVolume newId)
      ∧ (∀ i v', (initConnection volume ch svc newId st fuel t0).events.get? i
            = some (.saveRecord v') → 1 < i) := by
  obtain ⟨tail, hev, _, _⟩ := initConnection_remote_shape volume ch svc
    newId st fuel t0 bk hremote hhost
  refine ⟨initDest volume svc newId,
    { volume with migration_status := some ("target:" ++ newId) },
    ?_, rfl, ?_, rfl, ?_, ?_⟩
  · rw [hev]; rfl
  · rw [hev]; rfl
  · rw [hev]; rfl
  · intro i v' h
    rw [hev] at h
    rcases i with _ | _ | i
    · simp at h
    · simp at h
    · omega

/-- Witness for C5 at a concrete remote attach. -/
theorem c5_witness :
    ∃ nv originPtr,
      (initConnection mvol "hostB" svcB "dest-id" readyStatus 7 0).events.get? 1
          = some (.createRecord nv)
      ∧ (initConnection mvol "hostB" svcB "dest-id" readyStatus 7 0).events.get? 4
          = some (.saveRecord originPtr)
      ∧ (initConnection mvol "hostB" svcB "dest-id" readyStatus 7 0).events.get? 5
          = some (.rpcCreateVolume "dest-id") := by
  obtain ⟨nv, originPtr, h1, _, h2, _, h3, _⟩ := c5_ordering mvol "hostB"
    svcB "dest-id" readyStatus 7 0 "lvm#pool" (by decide) (by decide)
  exact ⟨nv, originPtr, h1, h2, h3⟩

/-! ## Claim C6 -/

/-- C6 is false in its last clause: when the paired source record is not
found, finalization still persists `migration_status = success` although no
source disconnect and no source deletion was requested (the source writes
`if src_volume:`-guarded in the code). -/
theorem c6_counterexample :
    Event.saveRecord { mvol with migration_status := some "success" }
        ∈ (finalize none mvol).2
    ∧ (finalize none mvol).2.filter isDisconnect = []
    ∧ (finalize none mvol).2.filter isRpcDelete = [] := by decide

/-- C6 (amended): during finalization the only overlay operations are
suspend, then the load of the direct linear mapping onto the local backing
store, then resume, in exactly that order with nothing between them; the
metadata device is deleted only after the resume; and — whenever the source
record was found — `migration_status = success` is persisted (as the last
event) only after the source disconnect and the source deletion request. -/
theorem c6_finalize_order (src : Option Volume) (v : Volume) :
    ((finalize src v).2.filter isDmOp =
      [.dmSuspend (targetName v), .dmLoad (targetName v) (linearTable v),
       .dmResume (targetName v)])
    ∧ (∃ pre post, (finalize src v).2
          = pre ++ Event.dmResume (targetName v) :: post
        ∧ (∀ e ∈ pre, isMetaDelete e = false)
        ∧ Event.metaDelete (metaName v) ∈ post)
    ∧ (∀ s, src = some s →
        ∃ l, (finalize src v).2
            = l ++ [Event.saveRecord { v with migration_status := some "success" }]
          ∧ Event.disconnectVol s.id ∈ l ∧ Event.rpcDeleteVolume s.id ∈ l) := by
  cases src with
  | none =>
    refine ⟨rfl, ?_, ?_⟩
    · refine ⟨[.msTrans v.id v.migration_status (some "completing"),
        .saveRecord { v with migration_status := some "completing" },
        .dmSuspend (targetName v), .dmLoad (targetName v) (linearTable v)],
        [.metaDelete (metaName v),
         .msTrans v.id (some "completing") (some "success"),
         .saveRecord { v with migration_status := some "success" }],
        rfl, ?_, by simp⟩
      intro e he
      simp only [List.mem_cons, List.not_mem_nil, or_false] at he
      rcases he with he | he | he | he <;> subst he <;> rfl
    · intro s h; cases h
  | some s =>
    refine ⟨rfl, ?_, ?_⟩
    · refine ⟨[.msTrans v.id v.migration_status (some "completing"),
        .saveRecord { v with migration_status := some "completing" },
        .dmSuspend (targetName v), .dmLoad (targetName v) (linearTable v)],
        [.metaDelete (metaName v),
         .disconnectVol s.id, .rpcRemoveExport s.id, .rpcDeleteVolume s.id,
         .msTrans v.id (some "completing") (some "success"),
         .saveRecord { v with migration_status := some "success" }],
        rfl, ?_, by simp⟩
      intro e he
      simp only [List.mem_cons, List.not_mem_nil, or_false] at he
      rcases he with he | he | he | he <;> subst he <;> rfl
    · intro t h
      injection h with h
      subst h
      refine ⟨[.msTrans v.id v.migration_status (some "completing"),
        .saveRecord { v with migration_status := some "completing" },
        .dmSuspend (targetName v), .dmLoad (targetName v) (linearTable v),
        .dmResume (targetName v), .metaDelete (metaName v),
        .disconnectVol s.id, .rpcRemoveExport s.id,
        .rpcDeleteVolume s.id,
        .msTrans v.id (some "completing") (some "success")],
        rfl, by simp, by simp⟩

/-- Witness for the amended C6: finalization of `mvol` with the source
`dvol` present ends in the `success` save, after both source-teardown
requests. -/
theorem c6_witness :
    ∃ l, (finalize (some dvol) mvol).2
        = l ++ [Event.saveRecord { mvol with migration_status := some "success" }]
      ∧ Event.disconnectVol dvol.id ∈ l
      ∧ Event.rpcDeleteVolume dvol.id ∈ l :=
  (c6_finalize_order (some dvol) mvol).2.2 dvol rfl

/-! ## Claim C7 -/

/-- C7 is false: in a tick whose first candidate fails (here with the
13-token status line, whose processing raises `IndexError`), the second
candidate — which on its own would finalize — is left unprocessed and
unchanged: the tick aborts with the error and emits no events at all. -/
theorem c7_counterexample :
    monitorTick [(statusLineA, none, mvol), (statusLineB, none, mvol2)]
      = ([], [mvol, mvol2], some .indexError)
    ∧ didFinalize statusLineB none mvol2 := by
  refine ⟨rfl, by decide⟩

/-- C7 (amended): a failure while processing one candidate aborts the
remainder of the tick's list — the following volumes stay unprocessed and
unchanged and no further events are emitted — while in the absence of a
failure each candidate is processed independently and the tick simply
concatenates the per-volume results. -/
theorem c7_tick_abort :
    (∀ ts src v rest e, monitorProcessVolume ts src v = .error e →
       monitorTick ((ts, src, v) :: rest)
         = ([], v :: rest.map (fun x => x.2.2), some e))
    ∧ (∀ ts src v rest v' evs,
        monitorProcessVolume ts src v = .ok (v', evs) →
        monitorTick ((ts, src, v) :: rest)
          = (evs ++ (monitorTick rest).1, v' :: (monitorTick rest).2.1,
             (monitorTick rest).2.2)) := by
  constructor
  · intro ts src v rest e h
    simp [monitorTick, h]
  · intro ts src v rest v' evs h
    simp [monitorTick, h]

/-- Witness for the amended C7: the failing single-candidate tick at the
13-token line. -/
theorem c7_witness :
    monitorTick [(statusLineA, none, mvol)] = ([], [mvol], some .indexError) := by
  have h := c7_tick_abort.1 statusLineA none mvol [] Err.indexError rfl
  simpa using h

/-! ## Claim C3 -/

/-- Creating a record with the role decided by `initMS` is a code edge. -/
theorem codeEdge_initMS (s : String) : codeEdge none (initMS s) := by
  unfold initMS
  by_cases h1 : s = "reserved"
  · rw [if_pos h1]
    exact Or.inr (Or.inr (Or.inr (Or.inr (Or.inl rfl))))
  · rw [if_neg h1]
    by_cases h2 : s = "in-use"
    · rw [if_pos h2]
      exact Or.inl (Or.inl ⟨rfl, Or.inl rfl⟩)
    · rw [if_neg h2]
      exact Or.inr (Or.inr (Or.inr (Or.inr (Or.inr ⟨rfl, rfl⟩))))

/-- All `migration_status` writes of the attach path are code edges. -/
theorem initConnection_transOk (volume : Volume) (ch : String)
    (svc : Service) (newId : String) (st : Nat → String) (fuel t0 : Nat) :
    transOk codeEdge (initConnection volume ch svc newId st fuel t0).events := by
  by_cases hl : ch = hostPart volume.host
  · intro vid a b h
    unfold initConnection at h
    rw [if_pos hl] at h
    simp at h
  · cases hsp : (splitChar '@' volume.host).get? 1 with
    | none =>
      intro vid a b h
      unfold initConnection at h
      rw [if_neg hl, hsp] at h
      simp at h
    | some bk =>
      obtain ⟨tail, hev, _, htail⟩ := initConnection_remote_shape volume ch
        svc newId st fuel t0 bk hl hsp
      intro vid a b h
      rw [hev] at h
      simp only [List.mem_cons] at h
      rcases h with h | h | h | h | h | h | h
      · simp at h
      · simp at h
      · injection h with h1 h2 h3
        subst h2; subst h3
        exact codeEdge_initMS volume.status
      · injection h with h1 h2 h3
        subst h2; subst h3
        exact Or.inr (Or.inl (startsTarget_target_append newId))
      · simp at h
      · simp at h
      · obtain ⟨ha, hb⟩ := htail vid a b h
        subst ha; subst hb
        exact Or.inr (Or.inr (Or.inl
          ⟨startsTarget_target_append newId, Or.inr rfl⟩))

/-- All `migration_status` writes of the creation-failure cleanup are code
edges, given that the hook branch was taken. -/
theorem cvCleanup_transOk (volume : Volume) (evs : List Event) (orig : Err)
    (cb hb : Bool)
    (hms : volume.migration_status = some "starting"
      ∨ volume.migration_status = some "migrating")
    (hevs : transOk codeEdge evs) :
    transOk codeEdge (cvCleanup volume evs orig cb hb).2.2 := by
  intro vid a b h
  unfold cvCleanup at h
  split at h
  · simp only [List.cons_append, List.nil_append, List.append_assoc,
      List.mem_append, List.mem_cons, List.not_mem_nil, or_false] at h
    rcases h with h | h | h | h | h | h | h
    · exact hevs vid a b h
    · injection h with h1 h2 h3
      subst h2; subst h3
      exact Or.inr (Or.inr (Or.inr (Or.inl ⟨hms, rfl⟩)))
    · simp at h
    · simp at h
    · simp at h
    · simp at h
    · simp at h
  · simp only [List.cons_append, List.nil_append, List.append_assoc,
      List.mem_append, List.mem_cons, List.not_mem_nil, or_false] at h
    rcases h with h | h | h | h
    · exact hevs vid a b h
    · injection h with h1 h2 h3
      subst h2; subst h3
      exact Or.inr (Or.inr (Or.inr (Or.inl ⟨hms, rfl⟩)))
    · simp at h
    · simp at h

/-- All `migration_status` writes of the volume-creation hook are code
edges. -/
theorem create_volume_transOk (volume : Volume) (srcVol : Option Volume)
    (hp : String) (c m dc mg : Bool) :
    transOk codeEdge (create_volume volume srcVol hp c m dc mg).2.2 := by
  unfold create_volume
  split
  case isTrue hms =>
    have hbase : transOk codeEdge [Event.baseCreate (vname volume)] := by
      intro vid a b h; simp at h
    cases srcVol with
    | none => exact cvCleanup_transOk _ _ _ _ _ hms hbase
    | some src =>
      by_cases hc : c
      · simp only [if_pos hc]
        have hcv : transOk codeEdge
            [Event.baseCreate (vname volume), .connectVol src.id] := by
          intro vid a b h; simp at h
        by_cases hm : m
        · simp only [if_pos hm]
          have hmc : transOk codeEdge
              [Event.baseCreate (vname volume), .connectVol src.id,
               .metaCreate (metaName volume) "1g"] := by
            intro vid a b h; simp at h
          by_cases hdc : dc
          · simp only [if_pos hdc]
            have hdcr : transOk codeEdge
                [Event.baseCreate (vname volume), .connectVol src.id,
                 .metaCreate (metaName volume) "1g",
                 .dmCreate (targetName volume) (cloneTable volume hp)] := by
              intro vid a b h; simp at h
            by_cases hmg : volume.migration_status = some "migrating"
            · simp only [if_pos hmg]
              by_cases hok : mg
              · simp only [if_pos hok]
                intro vid a b h; simp at h
              · simp only [if_neg hok]
                exact cvCleanup_transOk _ _ _ _ _ hms hdcr
            · simp only [if_neg hmg]
              intro vid a b h; simp at h
          · simp only [if_neg hdc]
            exact cvCleanup_transOk _ _ _ _ _ hms hmc
        · simp only [if_neg hm]
          exact cvCleanup_transOk _ _ _ _ _ hms hcv
      · simp only [if_neg hc]
        exact cvCleanup_transOk _ _ _ _ _ hms hbase
  case isFalse =>
    intro vid a b h; simp at h

/-- All `migration_status` writes of a successfully processed monitor
candidate are code edges (the monitor only examines volumes whose
`migration_status` starts with `target:`). -/
theorem monitor_transOk (ts : List String) (src : Option Volume)
    (v : Volume) (p : Volume × List Event)
    (hms : msTarget v.migration_status)
    (h : monitorProcessVolume ts src v = .ok p) : transOk codeEdge p.2 := by
  unfold monitorProcessVolume at h
  cases h2 : ts.get? 2 with
  | none => rw [h2] at h; cases h
  | some t2 =>
    rw [h2] at h
    simp only at h
    split at h
    · injection h with h
      intro vid a b hm
      rw [← h] at hm
      simp at hm
    · cases h6 : ts.get? 6 with
      | none => rw [h6] at h; cases h
      | some t6 =>
        rw [h6] at h
        simp only at h
        cases h1 : (splitChar '/' t6).get? 1 with
        | none => rw [h1] at h; cases h
        | some x1 =>
          rw [h1] at h
          simp only at h
          split at h
          · cases h7 : ts.get? 7 with
            | none => rw [h7] at h; cases h
            | some t7 =>
              rw [h7] at h
              simp only at h
              split at h
              · injection h with h
                subst h
                intro vid a b hm
                unfold finalize at hm
                simp only [List.append_assoc, List.mem_append,
                  List.mem_cons, List.not_mem_nil, or_false] at hm
                rcases hm with hm | hm
                · rcases hm with hm | hm
                  · injection hm with hm1 hm2 hm3
                    subst hm2; subst hm3
                    exact Or.inl (Or.inr (Or.inr (Or.inl ⟨hms, rfl⟩)))
                  · rcases hm with hm | hm | hm | hm | hm <;> simp at hm
                · rcases hm with hm | hm
                  · cases src with
                    | none => simp at hm
                    | some s =>
                      simp only [List.mem_cons, List.not_mem_nil,
                        or_false] at hm
                      rcases hm with hm | hm | hm <;> simp at hm
                  · rcases hm with hm | hm
                    · injection hm with hm1 hm2 hm3
                      subst hm2; subst hm3
                      exact Or.inl (Or.inr (Or.inr (Or.inr ⟨rfl, Or.inl rfl⟩)))
                    · simp at hm
              · injection h with h
                intro vid a b hm
                rw [← h] at hm
                simp at hm
          · injection h with h
            intro vid a b hm
            rw [← h] at hm
            simp at hm

/-- All `migration_status` writes of the rollback branch of the detach path
are code edges. -/
theorem tcRollback_transOk (volume src : Volume)
    (hms : msTarget volume.migration_status) :
    transOk codeEdge (tcRollback volume src).2.2.2 := by
  intro vid a b h
  simp only [tcRollback, List.mem_cons, List.not_mem_nil, or_false] at h
  rcases h with h | h | h | h | h | h | h | h | h
  iterate 7 simp at h
  · injection h with h1 h2 h3
    subst h2; subst h3
    exact Or.inr (Or.inr (Or.inl ⟨hms, Or.inl rfl⟩))
  · simp at h

/-- All `migration_status` writes of the detach path are code edges. -/
theorem terminate_transOk (volume : Volume) (conn : Option String)
    (srcVol : Option Volume) :
    transOk codeEdge (terminate_connection volume conn srcVol).2.2.2 := by
  unfold terminate_connection
  by_cases hms : msTarget volume.migration_status
  · rw [if_pos hms]
    by_cases hr : volume.status = "reserved"
    · rw [if_pos hr]
      cases srcVol with
      | none => intro vid a b h; simp at h
      | some src => exact tcRollback_transOk volume src hms
    · rw [if_neg hr]
      by_cases hu : volume.status = "in-use"
      · rw [if_pos hu]
        simp only
        cases conn with
        | none => intro vid a b h; simp at h
        | some chost =>
          simp only
          by_cases hch : chost = hostPart volume.host
          · rw [if_pos hch]
            cases srcVol with
            | none => intro vid a b h; simp at h
            | some src => exact tcRollback_transOk volume src hms
          · rw [if_neg hch]
            cases srcVol with
            | none => intro vid a b h; simp at h
            | some src =>
              intro vid a b h
              simp only [List.mem_cons, List.not_mem_nil, or_false] at h
              rcases h with h | h | h | h
              · simp at h
              · injection h with h1 h2 h3
                subst h2; subst h3
                exact Or.inr (Or.inr (Or.inr (Or.inr (Or.inl rfl))))
              · simp at h
              · simp at h
      · rw [if_neg hu]
        intro vid a b h; simp at h
  · rw [if_neg hms]
    by_cases hd : volume.status = "detaching"
    · rw [if_pos hd]
      intro vid a b h; simp at h
    · rw [if_neg hd]
      split
      · intro vid a b h; simp at h
      · intro vid a b h; simp at h

/-- C3 is false: `terminate_connection` on an aborted attachment performs
the transition `target:<id> → none`, which is not an edge of the claimed
graph (the wait-failure edge `target:<id> → error`, the `create_volume`
failure edges `starting|migrating → error` and the cutover edge
`starting → migrating` are likewise absent from it). -/
theorem c3_counterexample :
    Event.msTrans "orig-id" (some "target:dest-id") none
        ∈ (terminate_connection rvol (some "hostC") (some dvol)).2.2.2
    ∧ ¬ specEdge (some "target:dest-id") none := by
  exact ⟨by decide, by decide⟩

/-- C3 (amended): across all operations of the driver — the attach path,
the volume-creation hook, the monitor's per-candidate processing, and the
detach path — every `migration_status` write follows `codeEdge`: the
claimed graph none → starting|migrating → `target:X` → completing →
success|error extended with the pointer publication `any → target:X`, the
rollback and failure edges `target:X → none` and `target:X → error`, the
hook-failure edges `starting|migrating → error`, and the cutover edge into
`migrating`. -/
theorem c3_edges :
    (∀ volume ch svc newId st fuel t0,
        transOk codeEdge (initConnection volume ch svc newId st fuel t0).events)
    ∧ (∀ volume srcVol hp c m dc mg,
        transOk codeEdge (create_volume volume srcVol hp c m dc mg).2.2)
    ∧ (∀ ts src v p, msTarget v.migration_status →
        monitorProcessVolume ts src v = .ok p → transOk codeEdge p.2)
    ∧ (∀ volume conn srcVol,
        transOk codeEdge (terminate_connection volume conn srcVol).2.2.2) :=
  ⟨initConnection_transOk, create_volume_transOk,
   fun ts src v p hms h => monitor_transOk ts src v p hms h,
   terminate_transOk⟩

/-- Witness for the amended C3: the rollback transition of the aborted
attachment is a code edge. -/
theorem c3_witness : codeEdge (some "target:dest-id") none :=
  c3_edges.2.2.2 rvol (some "hostC") (some dvol) "orig-id"
    (some "target:dest-id") none (by decide)

/-! ## Claim C8 -/

/-- C8 names a real bug in the code: at the failing input — `create_volume`
of a `migrating` volume whose source lookup succeeds but whose
`connect_volume` call raises — the except-block does set
`status = error` and `migration_status = error` and persist, and removes
the overlay; but the next cleanup step dereferences the local
`src_volume_handle`, which was never bound, so a `NameError` escapes the
`save_and_reraise_exception` block: the caller sees the `NameError`
instead of the original connection error, and the metadata-device and
record cleanup steps never run. -/
theorem c8_cleanup_bug :
    (create_volume hvol (some mvol) "/dev/sdx" false true true true).1
        = some .nameError
    ∧ (create_volume hvol (some mvol) "/dev/sdx" false true true true).2.1.status
        = "error"
    ∧ (create_volume hvol (some mvol) "/dev/sdx" false true true
        true).2.1.migration_status = some "error"
    ∧ ((create_volume hvol (some mvol) "/dev/sdx" false true true
        true).2.2.filter isMetaDelete) = []
    ∧ ((create_volume hvol (some mvol) "/dev/sdx" false true true
        true).2.2.filter isBaseDelete) = [] := by
  refine ⟨rfl, rfl, rfl, rfl, rfl⟩

/-! ## Claim C9 -/

/-- C9: the identity swap is an involution — applying it twice restores
both records exactly — and a single application exchanges exactly
`name_id` and the seven placement fields while leaving `id` (and every
other field: status, migration status, attach status, size, owner, quota
flag, description) of both records unchanged. -/
theorem c9_switch_involution (a b : Volume) :
    switchVolumes (switchVolumes a b).1 (switchVolumes a b).2 = (a, b)
    ∧ (switchVolumes a b).1.name_id = b.name_id
    ∧ (switchVolumes a b).2.name_id = a.name_id
    ∧ (switchVolumes a b).1.host = b.host
    ∧ (switchVolumes a b).2.host = a.host
    ∧ (switchVolumes a b).1.cluster_name = b.cluster_name
    ∧ (switchVolumes a b).2.cluster_name = a.cluster_name
    ∧ (switchVolumes a b).1.availability_zone = b.availability_zone
    ∧ (switchVolumes a b).2.availability_zone = a.availability_zone
    ∧ (switchVolumes a b).1.provider_id = b.provider_id
    ∧ (switchVolumes a b).2.provider_id = a.provider_id
    ∧ (switchVolumes a b).1.provider_location = b.provider_location
    ∧ (switchVolumes a b).2.provider_location = a.provider_location
    ∧ (switchVolumes a b).1.provider_auth = b.provider_auth
    ∧ (switchVolumes a b).2.provider_auth = a.provider_auth
    ∧ (switchVolumes a b).1.provider_geometry = b.provider_geometry
    ∧ (switchVolumes a b).2.provider_geometry = a.provider_geometry
    ∧ (switchVolumes a b).1.id = a.id
    ∧ (switchVolumes a b).2.id = b.id
    ∧ (switchVolumes a b).1.status = a.status
    ∧ (switchVolumes a b).2.status = b.status
    ∧ (switchVolumes a b).1.migration_status = a.migration_status
    ∧ (switchVolumes a b).2.migration_status = b.migration_status
    ∧ (switchVolumes a b).1.attach_status = a.attach_status
    ∧ (switchVolumes a b).2.attach_status = b.attach_status
    ∧ (switchVolumes a b).1.size = a.size
    ∧ (switchVolumes a b).2.size = b.size
    ∧ (switchVolumes a b).1.user_id = a.user_id
    ∧ (switchVolumes a b).2.user_id = b.user_id
    ∧ (switchVolumes a b).1.project_id = a.project_id
    ∧ (switchVolumes a b).2.project_id = b.project_id
    ∧ (switchVolumes a b).1.use_quota = a.use_quota
    ∧ (switchVolumes a b).2.use_quota = b.use_quota
    ∧ (switchVolumes a b).1.display_description = a.display_description
    ∧ (switchVolumes a b).2.display_description = b.display_description := by
  cases a
  cases b
  exact ⟨rfl, rfl, rfl, rfl, rfl, rfl, rfl, rfl, rfl, rfl, rfl, rfl, rfl,
    rfl, rfl, rfl, rfl, rfl, rfl, rfl, rfl, rfl, rfl, rfl, rfl, rfl, rfl,
    rfl, rfl, rfl, rfl, rfl, rfl, rfl, rfl⟩

/-! ## Claim C10 -/

/-- C10: for a volume whose `migration_status` is neither `starting` nor
`migrating`, `create_volume` performs exactly the base driver's plain
provisioning — the trace is the single base-creation event, so no metadata
device, no overlay, no source connection and no control message — and
returns the record unchanged (its `status` and `migration_status`
included), raising nothing. -/
theorem c10_plain_create (volume : Volume) (srcVol : Option Volume)
    (hp : String) (c m dc mg : Bool)
    (h1 : volume.migration_status ≠ some "starting")
    (h2 : volume.migration_status ≠ some "migrating") :
    create_volume volume srcVol hp c m dc mg
      = (none, volume, [Event.baseCreate (vname volume)]) := by
  unfold create_volume
  rw [if_neg (by rintro (h | h); exacts [h1 h, h2 h])]

/-- Witness for C10: plain provisioning of `pvol`. -/
theorem c10_witness :
    create_volume pvol none "/dev/sdx" true true true true
      = (none, pvol, [Event.baseCreate (vname pvol)]) :=
  c10_plain_create pvol none "/dev/sdx" true true true true
    (by decide) (by decide)

end DMClone
